import Mathlib

/-!
# MessageException (src/mctoexception/template.h)

A shallow embedding of the `MessageException` class: the variadic argument
marshalling of `AllocateMessage`, the two-tier message resolution of its final
overload (with the `_UNICODE` conversion tail), and the ownership bookkeeping of
the constructor, copy constructor and destructor.

Conventions of the embedding

* A pointer is its address, a natural number; `0` is `nullptr`.
* `DWORD_PTR` is a natural number below `2 ^ wordBits`.
* Text is a list of code units (`char` or `wchar_t` values as natural numbers).
* The local heap (`LocalAlloc` / `LocalFree`) is an explicit state threaded
  through every operation, together with a log of the calls made on it.
* What the operating system decides (message table content, thread language,
  readable strings, whether an allocation succeeds) is a field of `Platform`.
-/

namespace MessageException

/-! ## Word-sized values -/

/-- Width in bits of `DWORD_PTR`. The `static_assert` of line 43 requires
`sizeof(messageid_t) == sizeof(DWORD_PTR)` with `messageid_t = HRESULT`, a 32-bit
type, so the header only compiles where `DWORD_PTR` has 32 bits. -/
def wordBits : Nat := 32

/-- The C-style cast `(DWORD_PTR)v` of an integral value: the value modulo
`2 ^ wordBits`. -/
def toDWORD_PTR (v : Int) : Nat := (v % (2 ^ wordBits : Int)).toNat

/-- Addresses of the two static placeholder literals (lines 187 and 188) in the
loaded image. -/
structure Statics where
  s_null : Nat
  s_widenull : Nat
deriving Repr, DecidableEq

/-- String literals are objects, so their addresses are not null. -/
def Statics.WellFormed (st : Statics) : Prop := st.s_null ≠ 0 ∧ st.s_widenull ≠ 0

instance (st : Statics) : Decidable st.WellFormed := by
  unfold Statics.WellFormed; exact inferInstance

/-- One insertion value, by the overload that the type traits of lines 84 to 93
select for its type `_first`. -/
inductive Insertion where
  /-- The type `_first` is `char*` or `char const*`; `p` is the pointer. -/
  | charpointer (p : Nat)
  /-- The type `_first` is `wchar_t*` or `wchar_t const*`; `p` is the pointer. -/
  | wcharpointer (p : Nat)
  /-- Every other accepted type (integral of at most one word, enumeration,
  handle, other pointer, character array): `v` is its value. -/
  | other (v : Int)
deriving Repr, DecidableEq

/-- The value pushed on `arguments` for one insertion (lines 118, 129, 140). -/
def Insertion.toArgument (st : Statics) : Insertion → Nat
  | .other first => toDWORD_PTR first
  | .charpointer first => if first = 0 then st.s_null else first
  | .wcharpointer first => if first = 0 then st.s_widenull else first

/-- The intermediate variadic overloads of `AllocateMessage` (lines 108 to 142):
each pushes the conversion of `first` on `arguments` and recurses on `remaining`;
the empty pack selects the final overload, here the continuation `final`. -/
def AllocateMessagePack {α : Type} (final : Int → List Nat → α) (st : Statics)
    (messageid : Int) : List Nat → List Insertion → α
  | arguments, [] => final messageid arguments
  | arguments, .other first :: remaining =>
      AllocateMessagePack final st messageid (arguments ++ [toDWORD_PTR first]) remaining
  | arguments, .charpointer first :: remaining =>
      AllocateMessagePack final st messageid
        (arguments ++ [if first = 0 then st.s_null else first]) remaining
  | arguments, .wcharpointer first :: remaining =>
      AllocateMessagePack final st messageid
        (arguments ++ [if first = 0 then st.s_widenull else first]) remaining

/-- The entry overload of `AllocateMessage` (lines 98 to 103): starts from an
empty `arguments` vector. -/
def AllocateMessageEntry {α : Type} (final : Int → List Nat → α) (st : Statics)
    (messageid : Int) (remaining : List Insertion) : α :=
  AllocateMessagePack final st messageid [] remaining

/-! ## The local heap -/

/-- One call on the local heap, as recorded in the log. -/
inductive HeapCall where
  /-- A block was allocated at address `p` (by `LocalAlloc`, or by the formatter
  under `FORMAT_MESSAGE_ALLOCATE_BUFFER`). -/
  | alloc (p : Nat)
  /-- The call `LocalFree(p)`. -/
  | free (p : Nat)
deriving Repr, DecidableEq

/-- The local heap: the live blocks with their content, a counter from which
block addresses are drawn (an address is never handed out twice, so an address
identifies one allocation), and the log of calls, oldest first. -/
structure Heap where
  next : Nat
  blocks : List (Nat × List Nat)
  calls : List HeapCall
deriving Repr, DecidableEq

namespace Heap

/-- Every live block was drawn from the counter. -/
def WellFormed (h : Heap) : Prop := ∀ b ∈ h.blocks, b.1 ≤ h.next

instance (h : Heap) : Decidable h.WellFormed := by
  unfold WellFormed; exact inferInstance

/-- A new live block holding `content`; its address is not null. -/
def allocate (h : Heap) (content : List Nat) : Nat × Heap :=
  (h.next + 1,
   { next := h.next + 1,
     blocks := (h.next + 1, content) :: h.blocks,
     calls := h.calls ++ [HeapCall.alloc (h.next + 1)] })

/-- Content of the live block at `p`, if there is one. -/
def read (h : Heap) (p : Nat) : Option (List Nat) := h.blocks.lookup p

/-- Overwrites the first `data.length` units of the live block at `p`. -/
def write (h : Heap) (p : Nat) (data : List Nat) : Heap :=
  { h with blocks := h.blocks.map fun b =>
      if b.1 = p then (b.1, data ++ b.2.drop data.length) else b }

/-- The null-terminated text at `p`: the units of the live block up to the first
zero. -/
def text (h : Heap) (p : Nat) : Option (List Nat) :=
  (h.read p).map (List.takeWhile (fun u => u != 0))

/-- The calls logged on `h'` after the first `h.calls.length` ones: what happened
since `h` when `h'` is a later state. -/
def callsSince (h h' : Heap) : List HeapCall := h'.calls.drop h.calls.length

end Heap

/-- The call `::LocalFree(p)`: the block is no longer live. -/
def LocalFree (p : Nat) (h : Heap) : Heap :=
  { h with blocks := h.blocks.filter (fun b => b.1 != p),
           calls := h.calls ++ [HeapCall.free p] }

/-- The call `::LocalAlloc(LMEM_FIXED | LMEM_ZEROINIT, size)`; `succeeds` is the
platform's decision. A failed call returns null and leaves the heap alone. -/
def LocalAlloc (succeeds : Bool) (size : Nat) (h : Heap) : Nat × Heap :=
  if succeeds then h.allocate (List.replicate size 0) else (0, h)

/-! ## Text -/

/-- The code units of an ASCII literal. -/
def units (s : String) : List Nat := s.toList.map Char.toNat

/-- The fallback template of line 189. -/
def s_defaultformat : List Nat :=
  units "Exception code 0x%1!08lX! : The message for this exception could not be generated."

/-- Pads `s` on the left with `fill` up to `width` units. -/
def padLeft (width fill : Nat) (s : List Nat) : List Nat :=
  List.replicate (width - s.length) fill ++ s

/-- The character of one digit: `0` to `9`, then letters from `A` or `a`. -/
def digitUnit (upper : Bool) (d : Nat) : Nat :=
  if d < 10 then 48 + d else (if upper then 55 else 87) + d

/-- Digits of `n` in `base`, most significant first, put in front of `acc`;
`fuel` bounds the number of digits produced. -/
def digitsAux (base : Nat) (upper : Bool) : Nat → Nat → List Nat → List Nat
  | 0, _, acc => acc
  | fuel + 1, n, acc =>
      if n < base then digitUnit upper n :: acc
      else digitsAux base upper fuel (n / base) (digitUnit upper (n % base) :: acc)

/-- The digits of `n` in `base` without leading zeros (`0` gives one digit). -/
def digits (base : Nat) (upper : Bool) (n : Nat) : List Nat :=
  digitsAux base upper (n + 1) n []

/-- The `k` low digits of `n` in `base`, most significant first. -/
def fixedDigits (base : Nat) (upper : Bool) : Nat → Nat → List Nat
  | 0, _ => []
  | k + 1, n => fixedDigits base upper k (n / base) ++ [digitUnit upper (n % base)]

/-- An uppercase hexadecimal digit character: `0` to `9` or `A` to `F`. -/
def isUpperHexUnit (u : Nat) : Prop := (48 ≤ u ∧ u ≤ 57) ∨ (65 ≤ u ∧ u ≤ 70)

instance (u : Nat) : Decidable (isUpperHexUnit u) := by
  unfold isUpperHexUnit; exact inferInstance

/-- The number that a string of hexadecimal digit characters denotes. -/
def hexValue (s : List Nat) : Nat :=
  s.foldl (fun acc u => acc * 16 + (if u ≤ 57 then u - 48 else u - 55)) 0

/-! ## The platform formatter

`::FormatMessage` is a service of the operating system. The model below covers
the part of its documented behaviour that the class relies on: insert sequences
`%N` and `%N!format!` with `N` from 1 to 99 taken from the argument array, the
escapes `%%` and `%0`, and `printf` formats made of an optional `0` flag, an
optional width, an optional `l` and one of `s d i u x X`. A template outside this
part makes the modelled call report failure. -/

/-- The conversion character of a `printf` format. -/
inductive Conversion where
  | str
  | dec
  | udec
  | hexLower
  | hexUpper
deriving Repr, DecidableEq

/-- A `printf` format: `0` flag, minimum width, conversion. -/
structure PrintfSpec where
  zeroPad : Bool
  width : Nat
  conv : Conversion
deriving Repr, DecidableEq

/-- Reads a decimal width; returns it with the rest of the format. -/
def parseWidth : List Nat → Nat → Nat × List Nat
  | [], acc => (acc, [])
  | c :: rest, acc =>
      if 48 ≤ c ∧ c ≤ 57 then parseWidth rest (acc * 10 + (c - 48)) else (acc, c :: rest)

/-- Reads the conversion character, which must end the format. -/
def parseConversion : List Nat → Option Conversion
  | [115] => some Conversion.str
  | [100] => some Conversion.dec
  | [105] => some Conversion.dec
  | [117] => some Conversion.udec
  | [120] => some Conversion.hexLower
  | [88] => some Conversion.hexUpper
  | _ => none

/-- Reads the format between the two `!` of an insert sequence. -/
def parseSpec (fmt : List Nat) : Option PrintfSpec :=
  let flagged : Bool × List Nat :=
    match fmt with
    | 48 :: rest => (true, rest)
    | rest => (false, rest)
  let sized := parseWidth flagged.2 0
  let unsized : List Nat :=
    match sized.2 with
    | 108 :: rest => rest
    | rest => rest
  (parseConversion unsized).map fun c => { zeroPad := flagged.1, width := sized.1, conv := c }

/-- Formats one entry of the argument array. `strings` gives the null-terminated
text that the formatter reads at an address, if any. -/
def formatArgument (strings : Nat → Option (List Nat)) (spec : PrintfSpec) (arg : Nat) :
    Option (List Nat) :=
  let fill : Nat := if spec.zeroPad then 48 else 32
  match spec.conv with
  | Conversion.str => (strings arg).map (padLeft spec.width 32)
  | Conversion.udec => some (padLeft spec.width fill (digits 10 false (arg % 2 ^ 32)))
  | Conversion.hexLower => some (padLeft spec.width fill (digits 16 false (arg % 2 ^ 32)))
  | Conversion.hexUpper => some (padLeft spec.width fill (digits 16 true (arg % 2 ^ 32)))
  | Conversion.dec =>
      let v := arg % 2 ^ 32
      if v < 2 ^ 31 then some (padLeft spec.width fill (digits 10 false v))
      else if spec.zeroPad then
        some (45 :: padLeft (spec.width - 1) 48 (digits 10 false (2 ^ 32 - v)))
      else some (padLeft spec.width 32 (45 :: digits 10 false (2 ^ 32 - v)))

/-- An insert sequence without a format is formatted as `!s!`. -/
def defaultSpec : PrintfSpec := { zeroPad := false, width := 0, conv := Conversion.str }

/-- Formats insert number `n` (counted from 1) of the argument array. -/
def formatInsert (strings : Nat → Option (List Nat)) (arguments : List Nat) (n : Nat)
    (spec : PrintfSpec) : Option (List Nat) :=
  match arguments[n - 1]? with
  | none => none
  | some arg => formatArgument strings spec arg

/-- Where the scan of a template stands. -/
inductive Scan where
  /-- In plain text. -/
  | plain
  /-- Just after a `%`. -/
  | percent
  /-- In the number of an insert sequence, `n` so far. -/
  | index (n : Nat)
  /-- In the format of insert `n`, the units `fmt` read so far. -/
  | format (n : Nat) (fmt : List Nat)
deriving Repr, DecidableEq

/-- Expands the insert sequences of a template; `none` when the template is
outside the modelled part or refers to an argument that is not there. -/
def expandInserts (strings : Nat → Option (List Nat)) (arguments : List Nat) :
    Scan → List Nat → Option (List Nat)
  | Scan.plain, [] => some []
  | Scan.plain, c :: rest =>
      if c = 37 then expandInserts strings arguments Scan.percent rest
      else (expandInserts strings arguments Scan.plain rest).map (fun t => c :: t)
  | Scan.percent, [] => none
  | Scan.percent, c :: rest =>
      if c = 48 then some []
      else if 49 ≤ c ∧ c ≤ 57 then expandInserts strings arguments (Scan.index (c - 48)) rest
      else if c = 37 then (expandInserts strings arguments Scan.plain rest).map (fun t => 37 :: t)
      else none
  | Scan.index n, [] => formatInsert strings arguments n defaultSpec
  | Scan.index n, c :: rest =>
      if c = 33 then expandInserts strings arguments (Scan.format n []) rest
      else if 48 ≤ c ∧ c ≤ 57 ∧ n < 10 then
        expandInserts strings arguments (Scan.index (n * 10 + (c - 48))) rest
      else
        match formatInsert strings arguments n defaultSpec with
        | none => none
        | some s =>
            if c = 37 then
              (expandInserts strings arguments Scan.percent rest).map (fun t => s ++ t)
            else (expandInserts strings arguments Scan.plain rest).map (fun t => s ++ c :: t)
  | Scan.format _ _, [] => none
  | Scan.format n fmt, c :: rest =>
      if c = 33 then
        match parseSpec fmt with
        | none => none
        | some spec =>
            match formatInsert strings arguments n spec with
            | none => none
            | some s => (expandInserts strings arguments Scan.plain rest).map (fun t => s ++ t)
      else expandInserts strings arguments (Scan.format n (fmt ++ [c])) rest

/-- How a formatter call can fail whatever the template: not at all, without
storing a buffer, or after storing one (a partial allocation). -/
inductive Fault where
  | none
  | failed
  | failedWithBuffer
deriving Repr, DecidableEq

/-- What a `::FormatMessage` call with `FORMAT_MESSAGE_ALLOCATE_BUFFER` leaves:
its return value, the pointer variable it was given the address of, the heap. -/
structure FormatResult where
  cch : Nat
  message : Nat
  heap : Heap
deriving Repr, DecidableEq

/-- The call `::FormatMessage(FORMAT_MESSAGE_ALLOCATE_BUFFER | ... |
FORMAT_MESSAGE_ARGUMENT_ARRAY, ...)`. `source` is the template the call works
from: the string passed with `FORMAT_MESSAGE_FROM_STRING`, or the entry found in
the module's message table with `FORMAT_MESSAGE_FROM_HMODULE` (`none` when the
table has no entry). On success the text is stored null-terminated in a new
block, its address is stored in `message` and its length is returned; on failure
zero is returned. An empty text is stored like any other and its length, zero, is
returned, which the caller cannot tell from a failure. The call belongs to the
operating system, not to the repository: this is a model of its documented
behaviour. -/
def FormatMessage (fault : Fault) (source : Option (List Nat))
    (strings : Nat → Option (List Nat)) (arguments : List Nat) (message : Nat) (h : Heap) :
    FormatResult :=
  match fault with
  | Fault.failed => { cch := 0, message := message, heap := h }
  | Fault.failedWithBuffer =>
      { cch := 0, message := (h.allocate [0]).1, heap := (h.allocate [0]).2 }
  | Fault.none =>
      match source with
      | none => { cch := 0, message := message, heap := h }
      | some template =>
          match expandInserts strings arguments Scan.plain template with
          | none => { cch := 0, message := message, heap := h }
          | some text =>
              { cch := text.length, message := (h.allocate (text ++ [0])).1,
                heap := (h.allocate (text ++ [0])).2 }

/-! ## The text-encoding collaborator -/

/-- UTF-8 bytes of one scalar value. -/
def utf8Scalar (c : Nat) : List Nat :=
  if c < 128 then [c]
  else if c < 2048 then [192 + c / 64, 128 + c % 64]
  else if c < 65536 then [224 + c / 4096, 128 + c / 64 % 64, 128 + c % 64]
  else [240 + c / 262144, 128 + c / 4096 % 64, 128 + c / 64 % 64, 128 + c % 64]

/-- UTF-8 bytes of one UTF-16 unit standing alone; a surrogate becomes U+FFFD. -/
def utf8Single (c : Nat) : List Nat :=
  if 55296 ≤ c ∧ c < 57344 then [239, 191, 189] else utf8Scalar c

/-- UTF-16 to UTF-8, as `CP_UTF8` with flags `0` converts. -/
def wideToUtf8 : List Nat → List Nat
  | [] => []
  | [c] => utf8Single c
  | hi :: lo :: rest =>
      if 55296 ≤ hi ∧ hi < 56320 ∧ 56320 ≤ lo ∧ lo < 57344 then
        utf8Scalar (65536 + (hi - 55296) * 1024 + (lo - 56320)) ++ wideToUtf8 rest
      else utf8Single hi ++ wideToUtf8 (lo :: rest)

/-- The call `::WideCharToMultiByte(CP_UTF8, 0, src, cch, dst, cbMultiByte, ...)`
on the units `src`: the return value and the bytes written to `dst`. With
`cbMultiByte = 0` nothing is written and the required size is returned. -/
def WideCharToMultiByte (src : List Nat) (cbMultiByte : Nat) : Nat × List Nat :=
  if cbMultiByte = 0 then ((wideToUtf8 src).length, [])
  else if (wideToUtf8 src).length ≤ cbMultiByte then ((wideToUtf8 src).length, wideToUtf8 src)
  else (0, [])

/-! ## The final overload of `AllocateMessage` -/

/-- What the class takes from its environment. -/
structure Platform where
  /-- Whether `_UNICODE` is defined for the build. -/
  unicode : Bool
  /-- The message table of the module `s_module`: identifier and language to
  template. -/
  messageTable : Nat → Nat → Option (List Nat)
  /-- The value of `::GetThreadUILanguage()`. -/
  threadUILanguage : Nat
  /-- The null-terminated text the formatter reads at an address. -/
  strings : Nat → Option (List Nat)
  /-- The fault of the first formatter call, if any. -/
  primaryFault : Fault
  /-- The fault of the second formatter call, if any. -/
  fallbackFault : Fault
  /-- Whether the `LocalAlloc` of line 171 succeeds. -/
  convertAlloc : Bool

/-- The cast `static_cast<DWORD>(messageid)`. -/
def toDWORD (messageid : Int) : Nat := (messageid % (2 ^ 32 : Int)).toNat

/-- The first formatter call (lines 152 and 153), `message` being null. -/
def primaryFormat (P : Platform) (messageid : Int) (arguments : List Nat) (h : Heap) :
    FormatResult :=
  FormatMessage P.primaryFault (P.messageTable (toDWORD messageid) P.threadUILanguage)
    P.strings arguments 0 h

/-- The second formatter call (lines 158 and 159): the template is
`s_defaultformat` and the argument array is the storage of `messageid`. -/
def fallbackFormat (P : Platform) (messageid : Int) (message : Nat) (h : Heap) :
    FormatResult :=
  FormatMessage P.fallbackFault (some s_defaultformat) P.strings [toDWORD_PTR messageid]
    message h

/-- Lines 168 to 180: with `_UNICODE` the native text is converted into a new
zeroed block of `convertcch + 1` bytes and the native buffer is released;
otherwise the native buffer is returned. -/
def returnMessage (P : Platform) (cchmessage message : Nat) (h : Heap) : Nat × Heap :=
  if P.unicode then
    let src := ((h.read message).getD []).take cchmessage
    let convertcch := (WideCharToMultiByte src 0).1
    let converted := LocalAlloc P.convertAlloc ((convertcch + 1) * 1) h
    let h2 :=
      if converted.1 ≠ 0 then
        converted.2.write converted.1 (WideCharToMultiByte src convertcch).2
      else converted.2
    (converted.1, LocalFree message h2)
  else (message, h)

/-- The final overload of `AllocateMessage` (lines 147 to 181): the returned
pointer (`0` for `nullptr`) and the heap it leaves. -/
def AllocateMessageFinal (P : Platform) (messageid : Int) (arguments : List Nat) (h : Heap) :
    Nat × Heap :=
  let r1 := primaryFormat P messageid arguments h
  if r1.cch = 0 then
    let cleared : Nat × Heap :=
      if r1.message ≠ 0 then (0, LocalFree r1.message r1.heap) else (r1.message, r1.heap)
    let r2 := fallbackFormat P messageid cleared.1 cleared.2
    if r2.cch = 0 then
      (0, if r2.message ≠ 0 then LocalFree r2.message r2.heap else r2.heap)
    else returnMessage P r2.cch r2.message r2.heap
  else returnMessage P r1.cch r1.message r1.heap

/-- The function `AllocateMessage(messageid, insertions...)` as the constructor
calls it. -/
def AllocateMessage (P : Platform) (st : Statics) (messageid : Int)
    (insertions : List Insertion) (h : Heap) : Nat × Heap :=
  AllocateMessageEntry (fun id arguments => AllocateMessageFinal P id arguments h)
    st messageid insertions

end MessageException

/-! ## The exception object -/

/-- The member variables of a `MessageException` (lines 185 and 186). -/
structure MessageException where
  m_what : Nat
  m_owned : Bool
deriving Repr, DecidableEq

namespace MessageException

/-- The instance constructor (lines 48 to 51). -/
def ctor (P : Platform) (st : Statics) (messageid : Int) (insertions : List Insertion)
    (h : Heap) : MessageException × Heap :=
  let m := AllocateMessage P st messageid insertions h
  ({ m_what := m.1, m_owned := decide (m.1 ≠ 0) }, m.2)

/-- The copy constructor (lines 55 to 57); `rhs` is taken by reference to const
and the heap is not involved. -/
def copy (rhs : MessageException) : MessageException :=
  { m_what := rhs.m_what, m_owned := false }

/-- The destructor (lines 61 to 64). -/
def dtor (e : MessageException) (h : Heap) : Heap :=
  if e.m_owned && decide (e.m_what ≠ 0) then LocalFree e.m_what h else h

/-- The member function `what` (lines 69 to 72). -/
def what (e : MessageException) : Nat := e.m_what

/-- Destroys the objects of `es` one after the other. -/
def dtorAll : List MessageException → Heap → Heap
  | [], h => h
  | e :: es, h => dtorAll es (e.dtor h)

/-- The objects that exist after a primary construction gave `original` and the
copy constructor was then applied any number of times, each time to an object
that exists already (the original or a copy). -/
inductive Family (original : MessageException) : List MessageException → Prop where
  | primary : Family original [original]
  | copied (objects : List MessageException) (rhs : MessageException) :
      Family original objects → rhs ∈ objects → Family original (rhs.copy :: objects)

end MessageException

/-! ## Notions used to state the properties -/

namespace MessageException

/-- The fallback message for an identifier: the text of `s_defaultformat` with
the insert sequence replaced by the identifier as 8 uppercase hexadecimal
digits. -/
def fallbackText (messageid : Int) : List Nat :=
  units "Exception code 0x" ++ fixedDigits 16 true 8 (toDWORD_PTR messageid)
    ++ units " : The message for this exception could not be generated."

/-- The text as `what` exposes it: converted to UTF-8 in a `_UNICODE` build, as
the formatter produced it otherwise. -/
def encoded (P : Platform) (text : List Nat) : List Nat :=
  if P.unicode then wideToUtf8 text else text

/-- The state of the heap after a call that started in `h` and returned `r.1`
with the heap `r.2`: the log has only grown; each block allocated since `h` was
allocated once and released exactly once, except the returned block, which was
not released; nothing else was released; the returned block, when there is one,
is the only live block added to those of `h`, and no block of `h` was touched. -/
def Accounted (h : Heap) (r : Nat × Heap) : Prop :=
  r.2.calls = h.calls ++ h.callsSince r.2
  ∧ (∀ a, HeapCall.alloc a ∈ h.callsSince r.2 →
      a ≠ 0 ∧ (h.callsSince r.2).count (HeapCall.alloc a) = 1
      ∧ (h.callsSince r.2).count (HeapCall.free a) = if a = r.1 then 0 else 1)
  ∧ (∀ a, HeapCall.free a ∈ h.callsSince r.2 → HeapCall.alloc a ∈ h.callsSince r.2)
  ∧ (r.1 ≠ 0 → HeapCall.alloc r.1 ∈ h.callsSince r.2
      ∧ ∃ content, r.2.blocks = (r.1, content) :: h.blocks)
  ∧ (r.1 = 0 → r.2.blocks = h.blocks)

/-! ## Concrete environments -/

/-- A heap on which nothing has happened yet. -/
def emptyHeap : Heap := { next := 0, blocks := [], calls := [] }

/-- The placeholders at the addresses 4096 and 8192. -/
def exampleStatics : Statics := { s_null := 4096, s_widenull := 8192 }

/-- An ANSI build over a module without message table, where no call fails. -/
def barePlatform : Platform :=
  { unicode := false
    messageTable := (fun _ _ => none)
    threadUILanguage := 1033
    strings := (fun _ => none)
    primaryFault := Fault.none
    fallbackFault := Fault.none
    convertAlloc := true }

/-- The same with `_UNICODE` defined. -/
def wideBarePlatform : Platform :=
  { barePlatform with unicode := true }

/-- A `_UNICODE` build where the `LocalAlloc` of line 171 fails. -/
def wideStarvedPlatform : Platform :=
  { barePlatform with unicode := true, convertAlloc := false }

/-- An ANSI build whose message table maps identifier 7 to the template
`File %1!s! not found (code %2!d!)`, with the text `config.ini` at address 20000
and the narrow placeholder text at address 4096. -/
def filePlatform : Platform :=
  { barePlatform with
    messageTable := (fun id _ =>
      if id = 7 then some (units "File %1!s! not found (code %2!d!)") else none)
    strings := (fun a =>
      if a = 4096 then some (units "<null pointer>")
      else if a = 20000 then some (units "config.ini") else none) }

/-- The platform `filePlatform` in a `_UNICODE` build where the `LocalAlloc` of
line 171 fails. -/
def wideStarvedFilePlatform : Platform :=
  { filePlatform with unicode := true, convertAlloc := false }

/-- The platform `filePlatform` where the first formatter call fails without
storing a buffer (the platform is out of memory, say). -/
def faultedFilePlatform : Platform :=
  { filePlatform with primaryFault := Fault.failed }

/-- An ANSI build whose message table maps identifier 7 to the template `%1`,
with the empty text at address 20000. -/
def emptyInsertPlatform : Platform :=
  { barePlatform with
    messageTable := (fun id _ => if id = 7 then some (units "%1") else none)
    strings := (fun a => if a = 20000 then some [] else none) }

/-- A platform where both formatter calls fail after storing a buffer. -/
def failingPlatform : Platform :=
  { barePlatform with
    primaryFault := Fault.failedWithBuffer
    fallbackFault := Fault.failedWithBuffer }

end MessageException

/-! ## Lemmas on the marshalling overloads -/

namespace MessageException

theorem AllocateMessagePack_eq {α : Type} (final : Int → List Nat → α) (st : Statics)
    (messageid : Int) (remaining : List Insertion) (arguments : List Nat) :
    AllocateMessagePack final st messageid arguments remaining
      = final messageid (arguments ++ remaining.map (Insertion.toArgument st)) := by
  induction remaining generalizing arguments with
  | nil => simp [AllocateMessagePack]
  | cons first rest ih =>
    cases first <;> simp [AllocateMessagePack, ih, Insertion.toArgument]

theorem AllocateMessageEntry_eq {α : Type} (final : Int → List Nat → α) (st : Statics)
    (messageid : Int) (insertions : List Insertion) :
    AllocateMessageEntry final st messageid insertions
      = final messageid (insertions.map (Insertion.toArgument st)) := by
  simp [AllocateMessageEntry, AllocateMessagePack_eq]

theorem AllocateMessage_eq (P : Platform) (st : Statics) (messageid : Int)
    (insertions : List Insertion) (h : Heap) :
    AllocateMessage P st messageid insertions h
      = AllocateMessageFinal P messageid (insertions.map (Insertion.toArgument st)) h := by
  simp [AllocateMessage, AllocateMessageEntry_eq]

theorem toDWORD_PTR_cast (v : Int) : ((toDWORD_PTR v : Nat) : Int) = v % 2 ^ wordBits := by
  unfold toDWORD_PTR
  exact Int.toNat_of_nonneg (Int.emod_nonneg v (by decide))

theorem toDWORD_PTR_lt (v : Int) : toDWORD_PTR v < 2 ^ wordBits := by
  have h1 := toDWORD_PTR_cast v
  have h2 : v % 2 ^ wordBits < 2 ^ wordBits := Int.emod_lt_of_pos v (by decide)
  have h3 : ((toDWORD_PTR v : Nat) : Int) < ((2 ^ wordBits : Nat) : Int) := by
    rw [h1]; exact_mod_cast h2
  exact_mod_cast h3

/-! ## Claims on the argument marshaller -/

/-- C1: for every message identifier and every list of insertions, the entry
overload of `AllocateMessage` calls the final overload with the identifier
unchanged and with the list of the converted insertions: the array has one entry
per insertion, in the order supplied, entry `i` being the conversion of insertion
`i`; a text pointer that is not null converts to its address, a null text pointer
to the address of the placeholder of its width, any other value to the value
modulo `2 ^ wordBits`. -/
theorem marshalling_preserves_order_and_count {α : Type} (final : Int → List Nat → α)
    (P : Platform) (st : Statics) (messageid : Int) (insertions : List Insertion) (h : Heap) :
    AllocateMessageEntry final st messageid insertions
        = final messageid (insertions.map (Insertion.toArgument st))
    ∧ AllocateMessage P st messageid insertions h
        = AllocateMessageFinal P messageid (insertions.map (Insertion.toArgument st)) h
    ∧ (AllocateMessageEntry (fun _ arguments => arguments) st messageid insertions).length
        = insertions.length
    ∧ (∀ i : Nat,
        (AllocateMessageEntry (fun _ arguments => arguments) st messageid insertions)[i]?
          = insertions[i]?.map (Insertion.toArgument st))
    ∧ (∀ p : Nat, Insertion.toArgument st (Insertion.charpointer (p + 1)) = p + 1)
    ∧ (∀ p : Nat, Insertion.toArgument st (Insertion.wcharpointer (p + 1)) = p + 1)
    ∧ Insertion.toArgument st (Insertion.charpointer 0) = st.s_null
    ∧ Insertion.toArgument st (Insertion.wcharpointer 0) = st.s_widenull
    ∧ (∀ v : Int, ((Insertion.toArgument st (Insertion.other v) : Nat) : Int)
          = v % 2 ^ wordBits) := by
  refine ⟨AllocateMessageEntry_eq _ _ _ _, AllocateMessage_eq _ _ _ _ _, ?_, ?_, ?_, ?_, ?_, ?_, ?_⟩
  · simp [AllocateMessageEntry_eq]
  · intro i; simp [AllocateMessageEntry_eq]
  · intro p; simp [Insertion.toArgument]
  · intro p; simp [Insertion.toArgument]
  · simp [Insertion.toArgument]
  · simp [Insertion.toArgument]
  · intro v; exact toDWORD_PTR_cast v

/-- C2: at every position whose insertion is a null narrow (wide) text pointer,
the argument array holds the address of `s_null` (`s_widenull`), and that entry
is not the null pointer, the placeholders being objects of the image. -/
theorem null_text_pointer_gets_placeholder (st : Statics) (hst : st.WellFormed)
    (messageid : Int) (insertions : List Insertion) (i : Nat)
    (hi : insertions[i]? = some (Insertion.charpointer 0)
          ∨ insertions[i]? = some (Insertion.wcharpointer 0)) :
    (insertions[i]? = some (Insertion.charpointer 0) →
        (AllocateMessageEntry (fun _ arguments => arguments) st messageid insertions)[i]?
          = some st.s_null)
    ∧ (insertions[i]? = some (Insertion.wcharpointer 0) →
        (AllocateMessageEntry (fun _ arguments => arguments) st messageid insertions)[i]?
          = some st.s_widenull)
    ∧ (AllocateMessageEntry (fun _ arguments => arguments) st messageid insertions)[i]?
          ≠ some 0 := by
  have key : ∀ ins : Insertion, insertions[i]? = some ins →
      (AllocateMessageEntry (fun _ arguments => arguments) st messageid insertions)[i]?
        = some (ins.toArgument st) := by
    intro ins h; simp [AllocateMessageEntry_eq, h]
  refine ⟨fun h => by simpa [Insertion.toArgument] using key _ h,
          fun h => by simpa [Insertion.toArgument] using key _ h, ?_⟩
  rcases hi with h | h
  · rw [key _ h]; simpa [Insertion.toArgument] using hst.1
  · rw [key _ h]; simpa [Insertion.toArgument] using hst.2

/-- Witness for C2: the placeholders at 4096 and 8192, a null narrow pointer as
second insertion. -/
theorem null_text_pointer_gets_placeholder_witness :
    Statics.WellFormed { s_null := 4096, s_widenull := 8192 }
    ∧ (AllocateMessageEntry (fun _ arguments => arguments)
          { s_null := 4096, s_widenull := 8192 } 1186
          [Insertion.other 5, Insertion.charpointer 0, Insertion.wcharpointer 0])[1]?
        = some 4096
    ∧ (AllocateMessageEntry (fun _ arguments => arguments)
          { s_null := 4096, s_widenull := 8192 } 1186
          [Insertion.other 5, Insertion.charpointer 0, Insertion.wcharpointer 0])[1]?
        ≠ some 0 :=
  have w := null_text_pointer_gets_placeholder { s_null := 4096, s_widenull := 8192 }
    (by decide) 1186 [Insertion.other 5, Insertion.charpointer 0, Insertion.wcharpointer 0] 1
    (Or.inl rfl)
  ⟨by decide, w.1 rfl, w.2.2⟩

end MessageException

namespace MessageException

/-! ## Lemmas on digits -/

theorem fixedDigits_length (base : Nat) (upper : Bool) (k n : Nat) :
    (fixedDigits base upper k n).length = k := by
  induction k generalizing n with
  | zero => simp [fixedDigits]
  | succ k ih => simp [fixedDigits, ih]

theorem fixedDigits_zero (base : Nat) (upper : Bool) (k : Nat) :
    fixedDigits base upper k 0 = List.replicate k 48 := by
  induction k with
  | zero => simp [fixedDigits]
  | succ k ih =>
    simp [fixedDigits, ih, digitUnit, List.replicate_succ']

theorem digitsAux_spec (base : Nat) (upper : Bool) (hb : 2 ≤ base) :
    ∀ (fuel n : Nat) (acc : List Nat) (k : Nat), n < fuel → n < base ^ (k + 1) →
      ∃ z, List.replicate z 48 ++ digitsAux base upper fuel n acc
            = fixedDigits base upper (k + 1) n ++ acc
          ∧ (digitsAux base upper fuel n acc).length + z = k + 1 + acc.length := by
  intro fuel
  induction fuel with
  | zero => intro n acc k h; omega
  | succ fuel ih =>
    intro n acc k hn hk
    by_cases hlt : n < base
    · refine ⟨k, ?_, ?_⟩
      · simp [digitsAux, hlt, fixedDigits, Nat.div_eq_of_lt hlt, Nat.mod_eq_of_lt hlt,
          fixedDigits_zero]
      · simp [digitsAux, hlt]; omega
    · have hpos : 0 < n := by omega
      have hdiv : n / base < n := Nat.div_lt_self hpos (by omega)
      cases k with
      | zero => simp at hk; omega
      | succ k =>
        have hk2 : n / base < base ^ (k + 1) := by
          apply Nat.div_lt_of_lt_mul
          calc n < base ^ (k + 1 + 1) := hk
            _ = base * base ^ (k + 1) := by rw [Nat.pow_succ, Nat.mul_comm]
        obtain ⟨z, hz1, hz2⟩ := ih (n / base) (digitUnit upper (n % base) :: acc) k
          (by omega) hk2
        refine ⟨z, ?_, ?_⟩
        · simp only [digitsAux, hlt, if_false]
          rw [hz1]
          conv_rhs => rw [fixedDigits]
          simp
        · simp only [digitsAux, hlt, if_false]
          simp at hz2
          omega

theorem padLeft_digits (base : Nat) (upper : Bool) (hb : 2 ≤ base) (k n : Nat)
    (hn : n < base ^ (k + 1)) :
    padLeft (k + 1) 48 (digits base upper n) = fixedDigits base upper (k + 1) n := by
  obtain ⟨z, hz1, hz2⟩ := digitsAux_spec base upper hb (n + 1) n [] k (by omega) hn
  unfold padLeft digits
  have : k + 1 - (digitsAux base upper (n + 1) n []).length = z := by
    simp at hz2; omega
  rw [this]
  simpa using hz1

theorem digitUnit_upperHex (d : Nat) (hd : d < 16) : isUpperHexUnit (digitUnit true d) := by
  unfold isUpperHexUnit digitUnit
  by_cases h : d < 10
  · simp [h]; omega
  · simp [h]; omega

theorem fixedDigits_upperHex (k n : Nat) :
    ∀ u ∈ fixedDigits 16 true k n, isUpperHexUnit u := by
  induction k generalizing n with
  | zero => simp [fixedDigits]
  | succ k ih =>
    intro u hu
    simp only [fixedDigits, List.mem_append, List.mem_singleton] at hu
    rcases hu with hu | hu
    · exact ih _ u hu
    · subst hu; exact digitUnit_upperHex _ (Nat.mod_lt _ (by decide))

theorem hexValue_append (s : List Nat) (u : Nat) :
    hexValue (s ++ [u]) = hexValue s * 16 + (if u ≤ 57 then u - 48 else u - 55) := by
  simp [hexValue, List.foldl_append]

theorem hexValue_fixedDigits (k n : Nat) :
    hexValue (fixedDigits 16 true k n) = n % 16 ^ k := by
  induction k generalizing n with
  | zero => simp [fixedDigits, hexValue, Nat.mod_one]
  | succ k ih =>
    rw [fixedDigits, hexValue_append, ih, pow_succ', Nat.mod_mul]
    have hd : n % 16 < 16 := Nat.mod_lt _ (by decide)
    have hv : (if digitUnit true (n % 16) ≤ 57 then digitUnit true (n % 16) - 48
        else digitUnit true (n % 16) - 55) = n % 16 := by
      unfold digitUnit
      by_cases h : n % 16 < 10
      · simp [h]; omega
      · simp [h]; omega
    rw [hv]; ring

end MessageException

namespace MessageException

/-! ## Lemmas on the heap -/

theorem filter_fresh (bs : List (Nat × List Nat)) (n p : Nat) (hwf : ∀ b ∈ bs, b.1 ≤ n)
    (hp : n < p) : bs.filter (fun b => b.1 != p) = bs := by
  apply List.filter_eq_self.mpr
  intro b hb
  have := hwf b hb
  simp; omega

theorem map_fresh (bs : List (Nat × List Nat)) (n p : Nat) (f : Nat × List Nat → Nat × List Nat)
    (hwf : ∀ b ∈ bs, b.1 ≤ n) (hp : n < p) :
    bs.map (fun b => if b.1 = p then f b else b) = bs := by
  induction bs with
  | nil => rfl
  | cons b bs ih =>
    have hb := hwf b (by simp)
    have hne : b.1 ≠ p := by omega
    simp only [List.map_cons, hne, if_false]
    rw [ih (fun c hc => hwf c (by simp [hc]))]

/-! ## Lemmas on the formatter -/

theorem fallback_expand (strings : Nat → Option (List Nat)) (a : Nat) :
    expandInserts strings [a] Scan.plain s_defaultformat
      = some (units "Exception code 0x" ++ (padLeft 8 48 (digits 16 true (a % 2 ^ 32))
          ++ units " : The message for this exception could not be generated.")) := by
  rfl

theorem fallback_expand_text (strings : Nat → Option (List Nat)) (messageid : Int) :
    expandInserts strings [toDWORD_PTR messageid] Scan.plain s_defaultformat
      = some (fallbackText messageid) := by
  have hlt : toDWORD_PTR messageid < 2 ^ 32 := toDWORD_PTR_lt messageid
  rw [fallback_expand, Nat.mod_eq_of_lt hlt,
    padLeft_digits 16 true (by decide) 7 _ (by simpa using hlt)]
  simp [fallbackText]

theorem FormatMessage_shape (fault : Fault) (source : Option (List Nat))
    (strings : Nat → Option (List Nat)) (arguments : List Nat) :
    (∀ message h, FormatMessage fault source strings arguments message h
        = { cch := 0, message := message, heap := h })
    ∨ (∀ message h, FormatMessage fault source strings arguments message h
        = { cch := 0, message := (h.allocate [0]).1, heap := (h.allocate [0]).2 })
    ∨ (∃ text, text ≠ [] ∧ fault = Fault.none
        ∧ (∃ template, source = some template
            ∧ expandInserts strings arguments Scan.plain template = some text)
        ∧ ∀ message h, FormatMessage fault source strings arguments message h
            = { cch := text.length, message := (h.allocate (text ++ [0])).1,
                heap := (h.allocate (text ++ [0])).2 }) := by
  cases fault with
  | failed => left; intro m h; rfl
  | failedWithBuffer => right; left; intro m h; rfl
  | none =>
    cases source with
    | none => left; intro m h; rfl
    | some template =>
      cases he : expandInserts strings arguments Scan.plain template with
      | none => left; intro m h; simp [FormatMessage, he]
      | some text =>
        cases text with
        | nil => right; left; intro m h; simp [FormatMessage, he]
        | cons c t =>
          right; right
          exact ⟨c :: t, by simp, rfl, ⟨template, rfl, he⟩, by intro m h; simp [FormatMessage, he]⟩

theorem WideCharToMultiByte_sized (src : List Nat) :
    (WideCharToMultiByte src 0).1 = (wideToUtf8 src).length := by
  simp [WideCharToMultiByte]

theorem WideCharToMultiByte_written (src : List Nat) :
    (WideCharToMultiByte src (wideToUtf8 src).length).2 = wideToUtf8 src := by
  unfold WideCharToMultiByte
  by_cases h : (wideToUtf8 src).length = 0
  · simp [h]; exact List.length_eq_zero.mp h
  · simp [h]

theorem resolver_accounted (P : Platform) (messageid : Int) (arguments : List Nat) (h : Heap)
    (hwf : h.WellFormed) : Accounted h (AllocateMessageFinal P messageid arguments h) := by
  have hwf' : ∀ b ∈ h.blocks, b.1 ≤ h.next := hwf
  have hf1 := filter_fresh h.blocks h.next (h.next + 1) hwf' (by omega)
  have hf2 := filter_fresh h.blocks h.next (h.next + 1 + 1) hwf' (by omega)
  have hf3 := filter_fresh h.blocks h.next (h.next + 1 + 1 + 1) hwf' (by omega)
  have hm2 := fun data : List Nat => map_fresh h.blocks h.next (h.next + 1 + 1)
    (fun b => (b.1, data ++ List.drop data.length b.2)) hwf' (by omega)
  have hm3 := fun data : List Nat => map_fresh h.blocks h.next (h.next + 1 + 1 + 1)
    (fun b => (b.1, data ++ List.drop data.length b.2)) hwf' (by omega)
  unfold AllocateMessageFinal primaryFormat fallbackFormat returnMessage Accounted
  rcases FormatMessage_shape P.primaryFault
      (P.messageTable (toDWORD messageid) P.threadUILanguage) P.strings arguments
    with h1 | h1 | ⟨t1, ht1, -, -, h1⟩
  · rcases FormatMessage_shape P.fallbackFault (some s_defaultformat) P.strings
      [toDWORD_PTR messageid] with h2 | h2 | ⟨t2, ht2, -, -, h2⟩
    · simp [h1, h2, Heap.callsSince]
    · simp [h1, h2, Heap.callsSince, Heap.allocate, LocalFree, hf1]
    · cases hu : P.unicode <;> cases hc : P.convertAlloc <;>
      simp [h1, h2, hu, hc, ht2, Heap.allocate, LocalFree, LocalAlloc, Heap.write, Heap.read,
        Heap.callsSince, WideCharToMultiByte_sized, WideCharToMultiByte_written, hf1, hf2, hf3, hm2, hm3, List.count_cons]
  · rcases FormatMessage_shape P.fallbackFault (some s_defaultformat) P.strings
      [toDWORD_PTR messageid] with h2 | h2 | ⟨t2, ht2, -, -, h2⟩
    · simp [h1, h2, Heap.callsSince, Heap.allocate, LocalFree, hf1]
    · simp [h1, h2, Heap.callsSince, Heap.allocate, LocalFree, hf1, hf2]
    · cases hu : P.unicode <;> cases hc : P.convertAlloc <;>
      simp [h1, h2, hu, hc, ht2, Heap.allocate, LocalFree, LocalAlloc, Heap.write, Heap.read,
        Heap.callsSince, WideCharToMultiByte_sized, WideCharToMultiByte_written, hf1, hf2, hf3, hm2, hm3, List.count_cons]
      omega
  · cases hu : P.unicode <;> cases hc : P.convertAlloc <;>
    simp [h1, hu, hc, ht1, Heap.allocate, LocalFree, LocalAlloc, Heap.write, Heap.read,
      Heap.callsSince, WideCharToMultiByte_sized, WideCharToMultiByte_written, hf1, hf2, hf3, hm2, hm3, List.count_cons]

theorem takeWhile_terminated (t : List Nat) (ht : ∀ u ∈ t, u ≠ 0) :
    (t ++ [0]).takeWhile (fun u => u != 0) = t := by
  induction t with
  | nil => simp
  | cons c t ih =>
    have hc : c ≠ 0 := ht c (by simp)
    simp [List.takeWhile_cons, hc, ih (fun u hu => ht u (by simp [hu]))]

theorem wideToUtf8_ascii : ∀ l : List Nat, (∀ u ∈ l, u < 128) → wideToUtf8 l = l
  | [], _ => rfl
  | [c], h => by
    have hc : c < 128 := h c (by simp)
    have hs : ¬ (55296 ≤ c ∧ c < 57344) := by omega
    simp [wideToUtf8, utf8Single, utf8Scalar, hs, hc]
  | hi :: lo :: rest, h => by
    have hhi : hi < 128 := h hi (by simp)
    have ih := wideToUtf8_ascii (lo :: rest) (fun u hu => h u (by simp [hu]))
    have hs : ¬ (55296 ≤ hi ∧ hi < 56320 ∧ 56320 ≤ lo ∧ lo < 57344) := by omega
    have hs2 : ¬ (55296 ≤ hi ∧ hi < 57344) := by omega
    rw [wideToUtf8, if_neg hs, ih]
    simp [utf8Single, utf8Scalar, hs2, hhi]

theorem fallbackText_ascii (messageid : Int) :
    ∀ u ∈ fallbackText messageid, 0 < u ∧ u < 128 := by
  intro u hu
  simp only [fallbackText, List.mem_append] at hu
  rcases hu with (hu | hu) | hu
  · exact (by decide : ∀ u ∈ units "Exception code 0x", 0 < u ∧ u < 128) u hu
  · have := fixedDigits_upperHex 8 (toDWORD_PTR messageid) u hu
    unfold isUpperHexUnit at this
    omega
  · exact (by decide : ∀ u ∈ units " : The message for this exception could not be generated.",
      0 < u ∧ u < 128) u hu

theorem fallbackText_ne_nil (messageid : Int) : fallbackText messageid ≠ [] := by
  simp [fallbackText, units]

theorem encoded_fallbackText (P : Platform) (messageid : Int) :
    encoded P (fallbackText messageid) = fallbackText messageid := by
  unfold encoded
  split
  · exact wideToUtf8_ascii _ (fun u hu => (fallbackText_ascii messageid u hu).2)
  · rfl

/-! ## Lemmas on the final overload -/

theorem returnMessage_stored (P : Platform) (t : List Nat) (h : Heap)
    (hconv : P.unicode = true → P.convertAlloc = true) :
    (returnMessage P t.length (h.allocate (t ++ [0])).1 (h.allocate (t ++ [0])).2).1
        = (if P.unicode then h.next + 2 else h.next + 1)
    ∧ (returnMessage P t.length (h.allocate (t ++ [0])).1 (h.allocate (t ++ [0])).2).2.read
          (returnMessage P t.length (h.allocate (t ++ [0])).1 (h.allocate (t ++ [0])).2).1
        = some (encoded P t ++ [0])
    ∧ (returnMessage P t.length (h.allocate (t ++ [0])).1 (h.allocate (t ++ [0])).2).2.calls
        = h.calls ++ (if P.unicode then
            [HeapCall.alloc (h.next + 1), HeapCall.alloc (h.next + 2), HeapCall.free (h.next + 1)]
          else [HeapCall.alloc (h.next + 1)]) := by
  cases hu : P.unicode
  · simp [returnMessage, hu, encoded, Heap.allocate, Heap.read]
  · have hc := hconv hu
    simp [returnMessage, hu, hc, encoded, Heap.allocate, Heap.read, Heap.write, LocalAlloc,
      LocalFree, WideCharToMultiByte_sized, WideCharToMultiByte_written, List.filter_cons]

theorem returnMessage_alloc_failed (P : Platform) (cch message : Nat) (h : Heap)
    (hu : P.unicode = true) (hc : P.convertAlloc = false) :
    returnMessage P cch message h = (0, LocalFree message h) := by
  simp [returnMessage, hu, hc, LocalAlloc]

end MessageException

namespace MessageException

theorem primary_stored (P : Platform) (messageid : Int) (arguments : List Nat)
    (template text : List Nat) (hfault : P.primaryFault = Fault.none)
    (htable : P.messageTable (toDWORD messageid) P.threadUILanguage = some template)
    (hexpand : expandInserts P.strings arguments Scan.plain template = some text)
    (message : Nat) (h : Heap) :
    FormatMessage P.primaryFault (P.messageTable (toDWORD messageid) P.threadUILanguage)
        P.strings arguments message h
      = { cch := text.length, message := (h.allocate (text ++ [0])).1,
          heap := (h.allocate (text ++ [0])).2 } := by
  simp [FormatMessage, hfault, htable, hexpand]

theorem fallback_stored (P : Platform) (messageid : Int) (hfault : P.fallbackFault = Fault.none)
    (message : Nat) (h : Heap) :
    fallbackFormat P messageid message h
      = { cch := (fallbackText messageid).length,
          message := (h.allocate (fallbackText messageid ++ [0])).1,
          heap := (h.allocate (fallbackText messageid ++ [0])).2 } := by
  simp [fallbackFormat, FormatMessage, hfault, fallback_expand_text]

theorem primaryFormat_absent (P : Platform) (messageid : Int) (arguments : List Nat) (h : Heap)
    (habsent : P.messageTable (toDWORD messageid) P.threadUILanguage = none) :
    (primaryFormat P messageid arguments h).cch = 0 := by
  unfold primaryFormat FormatMessage
  rw [habsent]
  cases P.primaryFault <;> rfl

theorem AllocateMessageFinal_of_primary (P : Platform) (messageid : Int) (arguments : List Nat)
    (h : Heap) (hcch : (primaryFormat P messageid arguments h).cch ≠ 0) :
    AllocateMessageFinal P messageid arguments h
      = returnMessage P (primaryFormat P messageid arguments h).cch
          (primaryFormat P messageid arguments h).message
          (primaryFormat P messageid arguments h).heap := by
  simp [AllocateMessageFinal, hcch]

theorem AllocateMessageFinal_of_fallback (P : Platform) (messageid : Int)
    (arguments : List Nat) (h : Heap)
    (hcch : (primaryFormat P messageid arguments h).cch = 0) :
    ∃ g, AllocateMessageFinal P messageid arguments h
      = if (fallbackFormat P messageid 0 g).cch = 0 then
          (0, if (fallbackFormat P messageid 0 g).message ≠ 0 then
                LocalFree (fallbackFormat P messageid 0 g).message
                  (fallbackFormat P messageid 0 g).heap
              else (fallbackFormat P messageid 0 g).heap)
        else returnMessage P (fallbackFormat P messageid 0 g).cch
          (fallbackFormat P messageid 0 g).message (fallbackFormat P messageid 0 g).heap := by
  by_cases hm : (primaryFormat P messageid arguments h).message = 0
  · exact ⟨(primaryFormat P messageid arguments h).heap, by
      simp [AllocateMessageFinal, hcch, hm]⟩
  · exact ⟨LocalFree (primaryFormat P messageid arguments h).message
      (primaryFormat P messageid arguments h).heap, by
      simp [AllocateMessageFinal, hcch, hm]⟩

theorem fallbackFormat_cch (P : Platform) (messageid : Int) (m m' : Nat) (g g' : Heap) :
    (fallbackFormat P messageid m g).cch = (fallbackFormat P messageid m' g').cch := by
  unfold fallbackFormat
  rcases FormatMessage_shape P.fallbackFault (some s_defaultformat) P.strings
      [toDWORD_PTR messageid] with h2 | h2 | ⟨t2, -, -, -, h2⟩ <;> simp [h2]

theorem fallback_resolved (P : Platform) (messageid : Int) (arguments : List Nat) (h : Heap)
    (hcch : (primaryFormat P messageid arguments h).cch = 0)
    (hfallback : P.fallbackFault = Fault.none)
    (hconv : P.unicode = true → P.convertAlloc = true) :
    (AllocateMessageFinal P messageid arguments h).1 ≠ 0
    ∧ (AllocateMessageFinal P messageid arguments h).2.read
        (AllocateMessageFinal P messageid arguments h).1
          = some (fallbackText messageid ++ [0]) := by
  obtain ⟨g, hg⟩ := AllocateMessageFinal_of_fallback P messageid arguments h hcch
  have hne : (fallbackText messageid).length ≠ 0 := by
    simpa using fallbackText_ne_nil messageid
  rw [hg, fallback_stored P messageid hfallback]
  simp only [hne, if_false]
  obtain ⟨h1, h2, -⟩ := returnMessage_stored P (fallbackText messageid) g hconv
  rw [h2, h1, encoded_fallbackText]
  refine ⟨?_, rfl⟩
  split <;> omega

/-! ## Claims on the message resolver -/

/-- C3 (as amended): when the identifier is absent from the message table and the
fallback formatting succeeds (with `_UNICODE`, the conversion buffer being
allocated), the resolver returns a buffer holding, null-terminated, the text
`Exception code 0x`, the identifier as 8 uppercase hexadecimal digits, and
` : The message for this exception could not be generated.`; for identifier
`0x000004A2` that is
`Exception code 0x000004A2 : The message for this exception could not be generated.` -/
theorem fallback_message_text (P : Platform) (st : Statics) (messageid : Int)
    (insertions : List Insertion) (h : Heap)
    (habsent : P.messageTable (toDWORD messageid) P.threadUILanguage = none)
    (hfallback : P.fallbackFault = Fault.none)
    (hconv : P.unicode = true → P.convertAlloc = true) :
    ∃ p g, AllocateMessage P st messageid insertions h = (p, g) ∧ p ≠ 0
      ∧ g.read p = some (fallbackText messageid ++ [0])
      ∧ g.text p = some (fallbackText messageid)
      ∧ fallbackText messageid
          = units "Exception code 0x" ++ fixedDigits 16 true 8 (toDWORD_PTR messageid)
              ++ units " : The message for this exception could not be generated."
      ∧ (fixedDigits 16 true 8 (toDWORD_PTR messageid)).length = 8
      ∧ (∀ u ∈ fixedDigits 16 true 8 (toDWORD_PTR messageid), isUpperHexUnit u)
      ∧ hexValue (fixedDigits 16 true 8 (toDWORD_PTR messageid)) = toDWORD_PTR messageid
      ∧ (messageid = 1186 → g.text p = some (units
          "Exception code 0x000004A2 : The message for this exception could not be generated.")) := by
  have hcch := primaryFormat_absent P messageid (insertions.map (Insertion.toArgument st)) h
    habsent
  obtain ⟨h1, h2⟩ := fallback_resolved P messageid _ h hcch hfallback hconv
  have htext : (AllocateMessageFinal P messageid (insertions.map (Insertion.toArgument st)) h).2.text
      (AllocateMessageFinal P messageid (insertions.map (Insertion.toArgument st)) h).1
        = some (fallbackText messageid) := by
    unfold Heap.text
    rw [h2]
    simp only [Option.map_some']
    rw [takeWhile_terminated _ (fun u hu => by
      have := (fallbackText_ascii messageid u hu).1; omega)]
  refine ⟨(AllocateMessageFinal P messageid (insertions.map (Insertion.toArgument st)) h).1,
    (AllocateMessageFinal P messageid (insertions.map (Insertion.toArgument st)) h).2,
    AllocateMessage_eq P st messageid insertions h, h1, h2, htext, rfl,
    fixedDigits_length _ _ _ _, fixedDigits_upperHex _ _, ?_, ?_⟩
  · rw [hexValue_fixedDigits]
    exact Nat.mod_eq_of_lt (by simpa using toDWORD_PTR_lt messageid)
  · intro hid
    rw [htext, hid]
    decide

/-- Witness for C3: identifier `0x4A2` on a module without message table. -/
theorem fallback_message_text_witness :
    barePlatform.messageTable (toDWORD 1186) barePlatform.threadUILanguage = none
    ∧ barePlatform.fallbackFault = Fault.none
    ∧ ∃ p g, AllocateMessage barePlatform exampleStatics 1186 [] emptyHeap = (p, g)
        ∧ g.text p = some (units
          "Exception code 0x000004A2 : The message for this exception could not be generated.") := by
  obtain ⟨p, g, h1, -, -, -, -, -, -, -, h9⟩ :=
    fallback_message_text barePlatform exampleStatics 1186 [] emptyHeap rfl rfl (by decide)
  exact ⟨rfl, rfl, p, g, h1, h9 rfl⟩

/-- Counterexample to C3 as stated: for identifier `0x000004A2`, absent from the
message table, with the fallback formatting succeeding, the message text is not
`Exception code 0x000004A2 : the message for this exception could not be generated.`
(the code's template reads `The`), in the ANSI and in the `_UNICODE` build; and
in a `_UNICODE` build whose conversion buffer cannot be allocated the fallback
formatter call succeeds and the resolver still returns null. -/
theorem fallback_message_text_counterexample :
    barePlatform.messageTable (toDWORD 1186) barePlatform.threadUILanguage = none
    ∧ (AllocateMessage barePlatform exampleStatics 1186 [] emptyHeap).1 ≠ 0
    ∧ (AllocateMessage barePlatform exampleStatics 1186 [] emptyHeap).2.text
        (AllocateMessage barePlatform exampleStatics 1186 [] emptyHeap).1
      ≠ some (units
        "Exception code 0x000004A2 : the message for this exception could not be generated.")
    ∧ (AllocateMessage wideBarePlatform exampleStatics 1186 [] emptyHeap).1 ≠ 0
    ∧ (AllocateMessage wideBarePlatform exampleStatics 1186 [] emptyHeap).2.text
        (AllocateMessage wideBarePlatform exampleStatics 1186 [] emptyHeap).1
      ≠ some (units
        "Exception code 0x000004A2 : the message for this exception could not be generated.")
    ∧ (primaryFormat wideStarvedPlatform 1186 [] emptyHeap).cch = 0
    ∧ (fallbackFormat wideStarvedPlatform 1186 0 emptyHeap).cch ≠ 0
    ∧ (AllocateMessage wideStarvedPlatform exampleStatics 1186 [] emptyHeap).1 = 0 := by
  decide

end MessageException

namespace MessageException

theorem primary_resolved (P : Platform) (messageid : Int) (arguments : List Nat) (h : Heap)
    (template text : List Nat) (hfault : P.primaryFault = Fault.none)
    (htable : P.messageTable (toDWORD messageid) P.threadUILanguage = some template)
    (hexpand : expandInserts P.strings arguments Scan.plain template = some text)
    (hne : text ≠ []) (hconv : P.unicode = true → P.convertAlloc = true) :
    (AllocateMessageFinal P messageid arguments h).1 ≠ 0
    ∧ (AllocateMessageFinal P messageid arguments h).2.read
        (AllocateMessageFinal P messageid arguments h).1 = some (encoded P text ++ [0])
    ∧ (AllocateMessageFinal P messageid arguments h).2.calls
        = h.calls ++ (if P.unicode then
            [HeapCall.alloc (h.next + 1), HeapCall.alloc (h.next + 2), HeapCall.free (h.next + 1)]
          else [HeapCall.alloc (h.next + 1)]) := by
  have hp := primary_stored P messageid arguments template text hfault htable hexpand 0 h
  have hlen : text.length ≠ 0 := by simpa using hne
  have hcch : (primaryFormat P messageid arguments h).cch ≠ 0 := by
    unfold primaryFormat; rw [hp]; exact hlen
  rw [AllocateMessageFinal_of_primary P messageid arguments h hcch]
  unfold primaryFormat
  rw [hp]
  obtain ⟨h1, h2, h3⟩ := returnMessage_stored P text h hconv
  refine ⟨?_, h2, h3⟩
  rw [h1]
  split <;> omega

/-- C4 (as amended): when the identifier is in the message table, the primary
formatter call is not failed by the platform and produces a non-empty text (the
template with the insert sequences replaced by the marshalled insertions), and,
with `_UNICODE`, the conversion buffer is allocated, the resolver returns a
buffer holding that text, null-terminated (converted to UTF-8 with `_UNICODE`);
the only formatter allocation of the call is that of the primary lookup, so the
fallback template is not used. -/
theorem primary_message_text (P : Platform) (st : Statics) (messageid : Int)
    (insertions : List Insertion) (h : Heap) (template text : List Nat)
    (hfault : P.primaryFault = Fault.none)
    (htable : P.messageTable (toDWORD messageid) P.threadUILanguage = some template)
    (hexpand : expandInserts P.strings (insertions.map (Insertion.toArgument st)) Scan.plain
      template = some text)
    (hne : text ≠ []) (hconv : P.unicode = true → P.convertAlloc = true) :
    ∃ p g, AllocateMessage P st messageid insertions h = (p, g) ∧ p ≠ 0
      ∧ g.read p = some (encoded P text ++ [0])
      ∧ ((∀ u ∈ encoded P text, u ≠ 0) → g.text p = some (encoded P text))
      ∧ (P.unicode = false → encoded P text = text
          ∧ h.callsSince g = [HeapCall.alloc p])
      ∧ (P.unicode = true → encoded P text = wideToUtf8 text
          ∧ h.callsSince g
              = [HeapCall.alloc (h.next + 1), HeapCall.alloc p, HeapCall.free (h.next + 1)])
      ∧ (ctor P st messageid insertions h).1.what = p := by
  obtain ⟨h1, h2, h3⟩ := primary_resolved P messageid (insertions.map (Insertion.toArgument st))
    h template text hfault htable hexpand hne hconv
  have hr := returnMessage_stored P text h hconv
  have hp := primary_stored P messageid (insertions.map (Insertion.toArgument st)) template text
    hfault htable hexpand 0 h
  have hcch : (primaryFormat P messageid (insertions.map (Insertion.toArgument st)) h).cch ≠ 0 := by
    unfold primaryFormat; rw [hp]; simpa using hne
  have hptr : (AllocateMessageFinal P messageid (insertions.map (Insertion.toArgument st)) h).1
      = if P.unicode then h.next + 2 else h.next + 1 := by
    rw [AllocateMessageFinal_of_primary P messageid _ h hcch]
    unfold primaryFormat
    rw [hp]
    exact hr.1
  refine ⟨(AllocateMessageFinal P messageid (insertions.map (Insertion.toArgument st)) h).1,
    (AllocateMessageFinal P messageid (insertions.map (Insertion.toArgument st)) h).2,
    AllocateMessage_eq P st messageid insertions h, h1, h2, ?_, ?_, ?_, ?_⟩
  · intro hz
    unfold Heap.text
    rw [h2]
    simp only [Option.map_some']
    rw [takeWhile_terminated _ hz]
  · intro hu
    refine ⟨by simp [encoded, hu], ?_⟩
    unfold Heap.callsSince
    rw [h3, hptr]
    simp [hu]
  · intro hu
    refine ⟨by simp [encoded, hu], ?_⟩
    unfold Heap.callsSince
    rw [h3, hptr]
    simp [hu]
  · simp [ctor, what, AllocateMessage_eq]

/-- Witness for C4: the template `File %1!s! not found (code %2!d!)` with the
insertions `config.ini` and `2` gives `File config.ini not found (code 2)`. -/
theorem primary_message_text_witness :
    filePlatform.primaryFault = Fault.none
    ∧ filePlatform.messageTable (toDWORD 7) filePlatform.threadUILanguage
        = some (units "File %1!s! not found (code %2!d!)")
    ∧ filePlatform.strings 20000 = some (units "config.ini")
    ∧ expandInserts filePlatform.strings
          ([Insertion.charpointer 20000, Insertion.other 2].map
            (Insertion.toArgument exampleStatics))
          Scan.plain (units "File %1!s! not found (code %2!d!)")
        = some (units "File config.ini not found (code 2)")
    ∧ ∃ p g, AllocateMessage filePlatform exampleStatics 7
          [Insertion.charpointer 20000, Insertion.other 2] emptyHeap = (p, g)
        ∧ p ≠ 0
        ∧ g.text p = some (units "File config.ini not found (code 2)")
        ∧ emptyHeap.callsSince g = [HeapCall.alloc p] := by
  obtain ⟨p, g, h1, h2, -, h4, h5, -, -⟩ :=
    primary_message_text filePlatform exampleStatics 7
      [Insertion.charpointer 20000, Insertion.other 2] emptyHeap
      (units "File %1!s! not found (code %2!d!)") (units "File config.ini not found (code 2)")
      rfl (by decide) (by decide) (by decide) (by decide)
  exact ⟨rfl, by decide, by decide, by decide, p, g, h1, h2, h4 (by decide), (h5 rfl).2⟩

/-- Counterexample to C4 as stated: with the identifier present in the message
table and exactly the matching insertions, the message text is not always the
template with the substitutions applied. (1) In a `_UNICODE` build whose
conversion buffer cannot be allocated, the primary call returns length 34 and the
resolver returns null (lines 171 to 175). (2) When the template `%1` is given the
empty text, the expansion is empty, the primary call returns length 0, which
line 154 reads as failure, and the message is the fallback text. (3) When the
platform fails the primary call, the message is the fallback text. -/
theorem primary_message_text_counterexample :
    (wideStarvedFilePlatform.messageTable (toDWORD 7) wideStarvedFilePlatform.threadUILanguage
        = some (units "File %1!s! not found (code %2!d!)")
      ∧ expandInserts wideStarvedFilePlatform.strings
            ([Insertion.charpointer 20000, Insertion.other 2].map
              (Insertion.toArgument exampleStatics))
            Scan.plain (units "File %1!s! not found (code %2!d!)")
          = some (units "File config.ini not found (code 2)")
      ∧ (primaryFormat wideStarvedFilePlatform 7
            ([Insertion.charpointer 20000, Insertion.other 2].map
              (Insertion.toArgument exampleStatics)) emptyHeap).cch = 34
      ∧ (AllocateMessage wideStarvedFilePlatform exampleStatics 7
            [Insertion.charpointer 20000, Insertion.other 2] emptyHeap).1 = 0
      ∧ (ctor wideStarvedFilePlatform exampleStatics 7
            [Insertion.charpointer 20000, Insertion.other 2] emptyHeap).1
          = { m_what := 0, m_owned := false })
    ∧ (emptyInsertPlatform.messageTable (toDWORD 7) emptyInsertPlatform.threadUILanguage
        = some (units "%1")
      ∧ emptyInsertPlatform.strings 20000 = some []
      ∧ expandInserts emptyInsertPlatform.strings
            ([Insertion.charpointer 20000].map (Insertion.toArgument exampleStatics))
            Scan.plain (units "%1")
          = some []
      ∧ (primaryFormat emptyInsertPlatform 7
            ([Insertion.charpointer 20000].map (Insertion.toArgument exampleStatics))
            emptyHeap).cch = 0
      ∧ (AllocateMessage emptyInsertPlatform exampleStatics 7
            [Insertion.charpointer 20000] emptyHeap).2.text
          (AllocateMessage emptyInsertPlatform exampleStatics 7
            [Insertion.charpointer 20000] emptyHeap).1
          = some (units
            "Exception code 0x00000007 : The message for this exception could not be generated."))
    ∧ (faultedFilePlatform.messageTable (toDWORD 7) faultedFilePlatform.threadUILanguage
        = some (units "File %1!s! not found (code %2!d!)")
      ∧ expandInserts faultedFilePlatform.strings
            ([Insertion.charpointer 20000, Insertion.other 2].map
              (Insertion.toArgument exampleStatics))
            Scan.plain (units "File %1!s! not found (code %2!d!)")
          = some (units "File config.ini not found (code 2)")
      ∧ (AllocateMessage faultedFilePlatform exampleStatics 7
            [Insertion.charpointer 20000, Insertion.other 2] emptyHeap).2.text
          (AllocateMessage faultedFilePlatform exampleStatics 7
            [Insertion.charpointer 20000, Insertion.other 2] emptyHeap).1
          = some (units
            "Exception code 0x00000007 : The message for this exception could not be generated.")
      ∧ (AllocateMessage faultedFilePlatform exampleStatics 7
            [Insertion.charpointer 20000, Insertion.other 2] emptyHeap).2.text
          (AllocateMessage faultedFilePlatform exampleStatics 7
            [Insertion.charpointer 20000, Insertion.other 2] emptyHeap).1
          ≠ some (units "File config.ini not found (code 2)")) := by
  decide

/-- C5: if the primary lookup and the fallback formatting both fail, the resolver
returns null and the constructor completes with an object whose `what()` is null
and which owns nothing; and whatever the platform does, the pointer returned to
the constructor is null, or points at the text of the primary lookup, or points
at the fallback text with the hexadecimal identifier (each null-terminated, in
the encoding of the build). -/
theorem resolver_degrades_to_empty (P : Platform) (st : Statics) (messageid : Int)
    (insertions : List Insertion) (h : Heap) :
    ((primaryFormat P messageid (insertions.map (Insertion.toArgument st)) h).cch = 0 →
      (fallbackFormat P messageid 0 h).cch = 0 →
        (AllocateMessage P st messageid insertions h).1 = 0
        ∧ (ctor P st messageid insertions h).1 = { m_what := 0, m_owned := false }
        ∧ (ctor P st messageid insertions h).1.what = 0)
    ∧ (ctor P st messageid insertions h).1.what = (AllocateMessage P st messageid insertions h).1
    ∧ (ctor P st messageid insertions h).2 = (AllocateMessage P st messageid insertions h).2
    ∧ ((ctor P st messageid insertions h).1.what = 0
        ∨ (∃ template text, P.primaryFault = Fault.none
            ∧ P.messageTable (toDWORD messageid) P.threadUILanguage = some template
            ∧ expandInserts P.strings (insertions.map (Insertion.toArgument st)) Scan.plain
                template = some text
            ∧ (ctor P st messageid insertions h).2.read (ctor P st messageid insertions h).1.what
                = some (encoded P text ++ [0]))
        ∨ ((primaryFormat P messageid (insertions.map (Insertion.toArgument st)) h).cch = 0
            ∧ (ctor P st messageid insertions h).2.read (ctor P st messageid insertions h).1.what
                = some (encoded P (fallbackText messageid) ++ [0]))) := by
  have hctor1 : (ctor P st messageid insertions h).1.what
      = (AllocateMessageFinal P messageid (insertions.map (Insertion.toArgument st)) h).1 := by
    simp [ctor, what, AllocateMessage_eq]
  have hctor2 : (ctor P st messageid insertions h).2
      = (AllocateMessageFinal P messageid (insertions.map (Insertion.toArgument st)) h).2 := by
    simp [ctor, AllocateMessage_eq]
  refine ⟨?_, by simp [ctor, what], by simp [ctor], ?_⟩
  · intro h1 h2
    obtain ⟨g, hg⟩ := AllocateMessageFinal_of_fallback P messageid _ h h1
    have h2' : (fallbackFormat P messageid 0 g).cch = 0 :=
      (fallbackFormat_cch P messageid 0 0 g h).trans h2
    have hz : (AllocateMessage P st messageid insertions h).1 = 0 := by
      rw [AllocateMessage_eq, hg]; simp [h2']
    refine ⟨hz, ?_, ?_⟩
    · simp [ctor, hz]
    · simp [ctor, what, hz]
  · rw [hctor1, hctor2]
    by_cases hconv : P.unicode = true → P.convertAlloc = true
    · by_cases hcch : (primaryFormat P messageid (insertions.map (Insertion.toArgument st)) h).cch = 0
      · by_cases hfb : (fallbackFormat P messageid 0 h).cch = 0
        · left
          obtain ⟨g, hg⟩ := AllocateMessageFinal_of_fallback P messageid _ h hcch
          have h2' : (fallbackFormat P messageid 0 g).cch = 0 :=
            (fallbackFormat_cch P messageid 0 0 g h).trans hfb
          rw [hg]; simp [h2']
        · right; right
          have hfault : P.fallbackFault = Fault.none := by
            cases hf : P.fallbackFault with
            | none => rfl
            | failed => exact absurd (by simp [fallbackFormat, FormatMessage, hf]) hfb
            | failedWithBuffer => exact absurd (by simp [fallbackFormat, FormatMessage, hf]) hfb
          obtain ⟨-, hr⟩ := fallback_resolved P messageid _ h hcch hfault hconv
          exact ⟨hcch, by rw [hr, encoded_fallbackText]⟩
      · right; left
        rcases FormatMessage_shape P.primaryFault
            (P.messageTable (toDWORD messageid) P.threadUILanguage) P.strings
            (insertions.map (Insertion.toArgument st))
          with hs | hs | ⟨text, hne, hfault, ⟨template, htable, hexpand⟩, -⟩
        · exact absurd (by simp [primaryFormat, hs]) hcch
        · exact absurd (by simp [primaryFormat, hs]) hcch
        · obtain ⟨-, hr, -⟩ := primary_resolved P messageid _ h template text hfault htable
            hexpand hne hconv
          exact ⟨template, text, hfault, htable, hexpand, hr⟩
    · left
      have hu : P.unicode = true := by
        by_contra hu; exact hconv (fun h' => absurd h' hu)
      have hc : P.convertAlloc = false := by
        cases hc : P.convertAlloc with
        | false => rfl
        | true => exact absurd (fun _ => hc) hconv
      by_cases hcch : (primaryFormat P messageid (insertions.map (Insertion.toArgument st)) h).cch = 0
      · obtain ⟨g, hg⟩ := AllocateMessageFinal_of_fallback P messageid _ h hcch
        rw [hg]
        split
        · rfl
        · rw [returnMessage_alloc_failed P _ _ _ hu hc]
      · rw [AllocateMessageFinal_of_primary P messageid _ h hcch,
          returnMessage_alloc_failed P _ _ _ hu hc]

/-- Witness for C5: both formatter calls fail after storing a buffer. -/
theorem resolver_degrades_to_empty_witness :
    (primaryFormat failingPlatform 7
        ([Insertion.other 2].map (Insertion.toArgument exampleStatics)) emptyHeap).cch = 0
    ∧ (fallbackFormat failingPlatform 7 0 emptyHeap).cch = 0
    ∧ (AllocateMessage failingPlatform exampleStatics 7 [Insertion.other 2] emptyHeap).1 = 0
    ∧ (ctor failingPlatform exampleStatics 7 [Insertion.other 2] emptyHeap).1
        = { m_what := 0, m_owned := false } :=
  have w := (resolver_degrades_to_empty failingPlatform exampleStatics 7 [Insertion.other 2]
    emptyHeap).1 (by decide) (by decide)
  ⟨by decide, by decide, w.1, w.2.1⟩

end MessageException

namespace MessageException

/-! ## Lemmas on destruction -/

theorem callsSince_append (g : Heap) (calls : List HeapCall) (g' : Heap)
    (hg : g'.calls = g.calls ++ calls) : g.callsSince g' = calls := by
  simp [Heap.callsSince, hg]

/-- The calls that destroying `e` logs. -/
theorem dtor_calls (e : MessageException) (g : Heap) :
    (e.dtor g).calls
      = g.calls ++ (if e.m_owned = true ∧ e.m_what ≠ 0 then [HeapCall.free e.m_what] else []) := by
  cases e with
  | mk w o => cases o <;> by_cases hw : w = 0 <;> simp [dtor, LocalFree, hw]

theorem dtorAll_calls (es : List MessageException) (g : Heap) :
    (dtorAll es g).calls
      = g.calls ++ es.flatMap (fun e =>
          if e.m_owned = true ∧ e.m_what ≠ 0 then [HeapCall.free e.m_what] else []) := by
  induction es generalizing g with
  | nil => simp [dtorAll]
  | cons e es ih => simp [dtorAll, ih, dtor_calls, List.flatMap_cons]

theorem family_releases (original : MessageException) (objects : List MessageException)
    (hf : Family original objects) :
    objects.flatMap (fun e =>
        if e.m_owned = true ∧ e.m_what ≠ 0 then [HeapCall.free e.m_what] else [])
      = (if original.m_owned = true ∧ original.m_what ≠ 0 then [HeapCall.free original.m_what]
          else []) := by
  induction hf with
  | primary => simp
  | copied objects rhs _ _ ih => simp [List.flatMap_cons, copy, ih]

/-! ## Claims on ownership -/

/-- C6: after primary construction the object is marked owned exactly when the
resolver returned a buffer: `m_owned` is true if and only if `m_what` is not
null, `m_what` being the pointer the resolver returned; an object built from the
null outcome is not owned and its destructor leaves every heap as it is. -/
theorem constructed_owned_iff_nonnull (P : Platform) (st : Statics) (messageid : Int)
    (insertions : List Insertion) (h : Heap) :
    ((ctor P st messageid insertions h).1.m_owned = true
        ↔ (ctor P st messageid insertions h).1.m_what ≠ 0)
    ∧ (ctor P st messageid insertions h).1.m_what
        = (AllocateMessage P st messageid insertions h).1
    ∧ (ctor P st messageid insertions h).2 = (AllocateMessage P st messageid insertions h).2
    ∧ ((ctor P st messageid insertions h).1.m_what = 0 →
        (ctor P st messageid insertions h).1.m_owned = false
        ∧ ∀ g : Heap, (ctor P st messageid insertions h).1.dtor g = g) := by
  refine ⟨by simp [ctor], by simp [ctor], by simp [ctor], ?_⟩
  intro hz
  have hz' : (AllocateMessage P st messageid insertions h).1 = 0 := by simpa [ctor] using hz
  refine ⟨by simp [ctor, hz'], fun g => by simp [ctor, dtor, hz']⟩

/-- Witness for C6: a construction that resolves (owned) and one that does not. -/
theorem constructed_owned_iff_nonnull_witness :
    (ctor barePlatform exampleStatics 1186 [] emptyHeap).1 = { m_what := 1, m_owned := true }
    ∧ (ctor failingPlatform exampleStatics 1186 [] emptyHeap).1.m_what = 0
    ∧ (ctor failingPlatform exampleStatics 1186 [] emptyHeap).1.m_owned = false
    ∧ (ctor failingPlatform exampleStatics 1186 [] emptyHeap).1.dtor emptyHeap = emptyHeap :=
  have w := (constructed_owned_iff_nonnull failingPlatform exampleStatics 1186 []
    emptyHeap).2.2.2 (by decide)
  ⟨by decide, by decide, w.1, w.2 emptyHeap⟩

/-- C7: a copy made by the copy constructor exposes the pointer of its source
(`what()` is the same buffer, hence the same text), is not owned whether the
source is owned or not, and its destruction leaves the heap exactly as it was: no
release is logged, the buffer of the source reads as before, and destroying the
source afterwards does what it would have done without the copy. The copy
constructor takes its source by reference to const and returns the copy only, so
the members of the source are as before. -/
theorem copy_shares_buffer_without_owning (original : MessageException) (h : Heap) :
    original.copy.what = original.what
    ∧ original.copy.m_owned = false
    ∧ original.copy.copy = original.copy
    ∧ original.copy.dtor h = h
    ∧ h.callsSince (original.copy.dtor h) = []
    ∧ (original.copy.dtor h).read original.what = h.read original.what
    ∧ (original.copy.dtor h).text original.copy.what = h.text original.what
    ∧ original.dtor (original.copy.dtor h) = original.dtor h := by
  have hd : original.copy.dtor h = h := by simp [dtor, copy]
  refine ⟨rfl, rfl, rfl, hd, ?_, by rw [hd], by rw [hd]; rfl, by rw [hd]⟩
  rw [hd]; simp [Heap.callsSince]

/-- C8: the destructor calls `LocalFree` on the buffer if and only if the object
is owned and its buffer is not null, and otherwise does nothing; the destructor
of an object built from the null outcome does nothing; and destroying, in any
order, the object of a primary construction and all the copies made from it or
from its copies logs exactly one release of the buffer when it is not null and
none when it is null. -/
theorem destruction_releases_at_most_once (P : Platform) (st : Statics) (messageid : Int)
    (insertions : List Insertion) (h : Heap) (e : MessageException) (g : Heap)
    (objects order : List MessageException) :
    e.dtor g = (if e.m_owned = true ∧ e.m_what ≠ 0 then LocalFree e.m_what g else g)
    ∧ g.callsSince (e.dtor g)
        = (if e.m_owned = true ∧ e.m_what ≠ 0 then [HeapCall.free e.m_what] else [])
    ∧ (HeapCall.free e.m_what ∈ g.callsSince (e.dtor g) ↔ (e.m_owned = true ∧ e.m_what ≠ 0))
    ∧ ((ctor P st messageid insertions h).1.what = 0 →
        (ctor P st messageid insertions h).1.dtor g = g)
    ∧ (Family (ctor P st messageid insertions h).1 objects → order.Perm objects →
        g.callsSince (dtorAll order g)
          = (if (ctor P st messageid insertions h).1.what ≠ 0 then
              [HeapCall.free (ctor P st messageid insertions h).1.what]
            else [])) := by
  have hcalls := callsSince_append g _ (e.dtor g) (dtor_calls e g)
  refine ⟨?_, hcalls, ?_, ?_, ?_⟩
  · cases e with
    | mk w o => cases o <;> by_cases hw : w = 0 <;> simp [dtor, hw]
  · rw [hcalls]
    by_cases hc : e.m_owned = true ∧ e.m_what ≠ 0
    · simp [hc]
    · simp [hc]
  · intro hz
    have hz' : (AllocateMessage P st messageid insertions h).1 = 0 := by
      simpa [ctor, what] using hz
    simp [ctor, dtor, hz']
  · intro hf hp
    rw [callsSince_append g _ _ (dtorAll_calls order g)]
    have hperm := List.Perm.flatMap_right (fun e : MessageException =>
        if e.m_owned = true ∧ e.m_what ≠ 0 then [HeapCall.free e.m_what] else []) hp
    rw [family_releases _ _ hf] at hperm
    have howned : ((ctor P st messageid insertions h).1.m_owned = true
        ∧ (ctor P st messageid insertions h).1.m_what ≠ 0)
          ↔ (ctor P st messageid insertions h).1.what ≠ 0 := by
      simp [ctor, what]
    by_cases hn : (ctor P st messageid insertions h).1.what ≠ 0
    · rw [if_pos (howned.mpr hn)] at hperm
      rw [if_pos hn]
      exact List.perm_singleton.mp hperm
    · rw [if_neg (fun hc => hn (howned.mp hc))] at hperm
      rw [if_neg hn]
      exact List.perm_nil.mp hperm

/-- Witness for C8: an owned original, a copy of it and a copy of that copy,
destroyed with the original in the middle. -/
theorem destruction_releases_at_most_once_witness :
    Family (ctor barePlatform exampleStatics 1186 [] emptyHeap).1
      [(ctor barePlatform exampleStatics 1186 [] emptyHeap).1.copy.copy,
       (ctor barePlatform exampleStatics 1186 [] emptyHeap).1.copy,
       (ctor barePlatform exampleStatics 1186 [] emptyHeap).1]
    ∧ (ctor barePlatform exampleStatics 1186 [] emptyHeap).1.what = 1
    ∧ (ctor barePlatform exampleStatics 1186 [] emptyHeap).2.callsSince
        (dtorAll
          [(ctor barePlatform exampleStatics 1186 [] emptyHeap).1.copy,
           (ctor barePlatform exampleStatics 1186 [] emptyHeap).1,
           (ctor barePlatform exampleStatics 1186 [] emptyHeap).1.copy.copy]
          (ctor barePlatform exampleStatics 1186 [] emptyHeap).2)
        = [HeapCall.free 1] := by
  have hf : Family (ctor barePlatform exampleStatics 1186 [] emptyHeap).1
      [(ctor barePlatform exampleStatics 1186 [] emptyHeap).1.copy.copy,
       (ctor barePlatform exampleStatics 1186 [] emptyHeap).1.copy,
       (ctor barePlatform exampleStatics 1186 [] emptyHeap).1] :=
    Family.copied _ _ (Family.copied _ _ Family.primary (by simp)) (by simp)
  have w := (destruction_releases_at_most_once barePlatform exampleStatics 1186 [] emptyHeap
    (ctor barePlatform exampleStatics 1186 [] emptyHeap).1
    (ctor barePlatform exampleStatics 1186 [] emptyHeap).2
    [(ctor barePlatform exampleStatics 1186 [] emptyHeap).1.copy.copy,
     (ctor barePlatform exampleStatics 1186 [] emptyHeap).1.copy,
     (ctor barePlatform exampleStatics 1186 [] emptyHeap).1]
    [(ctor barePlatform exampleStatics 1186 [] emptyHeap).1.copy,
     (ctor barePlatform exampleStatics 1186 [] emptyHeap).1,
     (ctor barePlatform exampleStatics 1186 [] emptyHeap).1.copy.copy]).2.2.2.2 hf
    ((List.Perm.cons _ (List.Perm.swap _ _ _)).trans (List.Perm.swap _ _ _))
  have h1 : (ctor barePlatform exampleStatics 1186 [] emptyHeap).1.what = 1 := by decide
  refine ⟨hf, h1, ?_⟩
  rw [w, h1]
  rfl

end MessageException

namespace MessageException

/-! ## Claims on the conversion tail and on the buffers of a call -/

/-- C10: whatever the outcome of the platform calls (each formatter call
succeeding, failing, or failing after storing a buffer; the conversion
allocation succeeding or failing), when the resolver returns, every block
allocated during the call was allocated once and released exactly once, except
the block it returns, which was not released and is live; when it returns null
the live blocks are those of before the call. -/
theorem resolver_releases_all_but_result (P : Platform) (st : Statics) (messageid : Int)
    (insertions : List Insertion) (h : Heap) (hwf : h.WellFormed) :
    Accounted h (AllocateMessage P st messageid insertions h) := by
  rw [AllocateMessage_eq]
  exact resolver_accounted P messageid _ h hwf

/-- Witness for C10: both formatter calls fail after storing a buffer; the two
buffers are released and null is returned. -/
theorem resolver_releases_all_but_result_witness :
    emptyHeap.WellFormed
    ∧ Accounted emptyHeap (AllocateMessage failingPlatform exampleStatics 7
        [Insertion.charpointer 0, Insertion.other 2] emptyHeap)
    ∧ emptyHeap.callsSince (AllocateMessage failingPlatform exampleStatics 7
        [Insertion.charpointer 0, Insertion.other 2] emptyHeap).2
        = [HeapCall.alloc 1, HeapCall.free 1, HeapCall.alloc 2, HeapCall.free 2] :=
  ⟨by decide,
   resolver_releases_all_but_result failingPlatform exampleStatics 7
     [Insertion.charpointer 0, Insertion.other 2] emptyHeap (by decide),
   by decide⟩

end MessageException
